import Mathlib

set_option maxRecDepth 4096

/-!
Shallow embedding of the multiflow repository (two C++ programs:
`proxysocks.cpp`, the HeaderBootstrap HTTP-header proxy, and
`src/socks5_server.cpp`, the SOCKS5 server).  Strings are embedded as
`List Char`, byte streams as `List Nat`, and the relevant fragments of the
POSIX/asio environment (connect results, readiness waits, send acceptance)
are passed explicitly as parameters.
-/

namespace Multiflow

/-! ### std::string primitives -/

/-- `hay.find(pat)`: index of the first occurrence of `pat` in `hay`
(`none` models `std::string::npos`).  `find` of the empty pattern is `0`,
as in C++. -/
def strFind : List Char → List Char → Option Nat
  | [], pat => if pat = [] then some 0 else none
  | c :: t, pat =>
    if List.isPrefixOf pat (c :: t) then some 0
    else (strFind t pat).map (· + 1)

/-- `hay.find(ch, pos)`: index of the first occurrence of character `ch`
at or after position `pos`. -/
def strFindCharFrom (hay : List Char) (ch : Char) (pos : Nat) : Option Nat :=
  (strFind (hay.drop pos) [ch]).map (pos + ·)

/-! ### Configuration constants of proxysocks.cpp (lines 28-38) -/

def IP : List Char := "0.0.0.0".data

/-- `const std::string PASS = ""` — the passphrase is empty by default.
The claims speak of "the configured passphrase", so the authorization
functions below are parameterized over it; this constant is what the
program instantiates it with. -/
def PASS : List Char := []

def BUFLEN : Nat := 131072

def TIMEOUT : Nat := 60

def MSG : List Char := "@TMYCOMNECTVPN".data

def COR : List Char := "<font color=\"null\">".data

def FTAG : List Char := "</font>".data

def DEFAULT_HOST : List Char := "0.0.0.0:22".data

def RESPONSE : List Char := "HTTP/1.1 200 ".data ++ COR ++ MSG ++ FTAG ++ "\r\n\r\n".data

def resp400 : List Char := "HTTP/1.1 400 WrongPass!\r\n\r\n".data

def resp403 : List Char := "HTTP/1.1 403 Forbidden!\r\n\r\n".data

def resp502 : List Char := "HTTP/1.1 502 Bad Gateway!\r\n\r\n".data

/-! ### findHeader (proxysocks.cpp lines 75-84) -/

/-- `findHeader(head, header)`: locate `"<header>: "`, take the text after
the colon-space up to the next CRLF; every failure returns `""`. -/
def findHeader (head header : List Char) : List Char :=
  match strFind head (header ++ ": ".data) with
  | none => []
  | some aux0 =>
    match strFindCharFrom head ':' aux0 with
    | none => []
    | some aux =>
      let sub := head.drop (aux + 2)
      match strFind sub "\r\n".data with
      | none => []
      | some e => sub.take e

/-! ### std::stoi -/

def isSpaceCh (c : Char) : Bool :=
  c = ' ' || c = '\t' || c = '\n' || c = '\x0b' || c = '\x0c' || c = '\r'

def isDigitCh (c : Char) : Bool := '0' ≤ c && c ≤ '9'

/-- `std::stoi`: skip whitespace, optional sign, then a maximal run of
decimal digits.  `Except.error ()` models both `std::invalid_argument`
(no digits) and `std::out_of_range` (outside `int` range). -/
def stoi (s : List Char) : Except Unit Int :=
  let s1 := s.dropWhile isSpaceCh
  let signAndRest : Bool × List Char :=
    match s1 with
    | '-' :: t => (true, t)
    | '+' :: t => (false, t)
    | _ => (false, s1)
  let ds := signAndRest.snd.takeWhile isDigitCh
  if ds = [] then Except.error ()
  else
    let mag : Int := ds.foldl (fun a c => a * 10 + (Int.ofNat (c.toNat - 48))) 0
    let v : Int := if signAndRest.fst then -mag else mag
    if v < -2147483648 || 2147483647 < v then Except.error ()
    else Except.ok v

/-! ### HeaderBootstrap authorization (proxysocks.cpp lines 194-213) -/

/-- The `X-Real-Host` value with the `DEFAULT_HOST` fallback
(`if (hostPort.empty()) hostPort = DEFAULT_HOST`). -/
def hostPortOf (clientBuffer : List Char) : List Char :=
  let h := findHeader clientBuffer "X-Real-Host".data
  if h = [] then DEFAULT_HOST else h

/-- `bool allowed = false; if (!PASS.empty() && passwd == PASS) allowed = true;
else if (hostPort.find(IP) == 0) allowed = true;`  Parameterized over the
configured passphrase `pass` and bind address `ip`. -/
def authAllowed (pass ip passwd hostPortS : List Char) : Bool :=
  if pass ≠ [] ∧ passwd = pass then true
  else if strFind hostPortS ip = some 0 then true
  else false

/-- The rejection reply chosen at proxysocks.cpp line 209:
`(!PASS.empty() && passwd != PASS) ? "HTTP/1.1 400 WrongPass!" : "HTTP/1.1 403 Forbidden!"`. -/
def rejectReply (pass passwd : List Char) : List Char :=
  if pass ≠ [] ∧ passwd ≠ pass then resp400 else resp403

/-! ### Upstream connector (proxysocks.cpp `ConnectionHandler::connectTarget`,
lines 121-180).  The outcomes of the `getaddrinfo`, `socket`, `fcntl` and
`connect` system calls are supplied by a `HbEnv` environment. -/

/-- Result of the `connect(2)` call: success, failure with
`errno == EINPROGRESS`, or failure with any other errno. -/
inductive ConnectOutcome
  | ok
  | errInProgress
  | errOther
deriving DecidableEq

structure HbEnv where
  gaiOk : Bool
  sockOk : Bool
  nbOk : Bool
  conn : ConnectOutcome
deriving DecidableEq

/-- The port computation of `connectTarget`:
`int port = (colonPos != npos) ? std::stoi(hostPort.substr(colonPos+1)) : 22;`
An `error` is a thrown `std::invalid_argument` / `std::out_of_range`. -/
def portParse (hostPortS : List Char) : Except Unit Int :=
  match strFindCharFrom hostPortS ':' 0 with
  | some p => stoi (hostPortS.drop (p + 1))
  | none => Except.ok 22

/-- `connectTarget` as a whole: `Except.error` is a `std::stoi` exception
propagating out; `Except.ok b` is the boolean return value.  Note the
`connect` branch: `errno != EINPROGRESS` returns `false`, while
`EINPROGRESS` falls through to `return true` with no wait for
writability/completion (lines 163-175). -/
def connectTarget (env : HbEnv) (hostPortS : List Char) : Except Unit Bool :=
  match portParse hostPortS with
  | Except.error e => Except.error e
  | Except.ok _port =>
    if env.gaiOk = false then Except.ok false
    else if env.sockOk = false then Except.ok false
    else if env.nbOk = false then Except.ok false
    else
      match env.conn with
      | ConnectOutcome.ok => Except.ok true
      | ConnectOutcome.errInProgress => Except.ok true
      | ConnectOutcome.errOther => Except.ok false

/-- What `ConnectionHandler::handle` sends back to the client during
negotiation: the list of messages written to the client socket (in order)
and whether the relay phase was reached.  (Teardown itself is modelled by
`chClose` below; the destructor invokes it on every exit path.) -/
structure HbOutcome where
  replies : List (List Char)
  tunnel : Bool
deriving DecidableEq

/-- The negotiation part of `ConnectionHandler::handle` (lines 182-308)
applied to the initial client bytes `clientBuffer` (the single `recv`
result, nonempty).  The `X-Split` extra read discards its data and sends
nothing, so it does not appear here.  A `connectTarget` exception lands in
the catch-all at lines 304-308, which sends nothing. -/
def hbHandle (env : HbEnv) (pass ip : List Char) (clientBuffer : List Char) : HbOutcome :=
  let hostPortS := hostPortOf clientBuffer
  let passwd := findHeader clientBuffer "X-Pass".data
  if authAllowed pass ip passwd hostPortS = false then
    { replies := [rejectReply pass passwd], tunnel := false }
  else
    match connectTarget env hostPortS with
    | Except.error _ => { replies := [], tunnel := false }
    | Except.ok false => { replies := [resp502], tunnel := false }
    | Except.ok true => { replies := [RESPONSE], tunnel := true }

/-! ### Relay loop of proxysocks (lines 246-300).  One `WaitRes` per
`epoll_wait` call: `empty` is `nfds == 0`, `eintr` is `nfds == -1` with
`errno == EINTR`, `werr` is any other `epoll_wait` failure, `ev` is
`nfds > 0` (the inner event processing only ever `break`s out of the
`for`, never out of the `while`, so the loop continues after it, with the
idle counter reset to zero). -/

inductive WaitRes
  | empty
  | eintr
  | werr
  | ev
deriving DecidableEq

inductive LoopExit
  | timeoutExit
  | errorExit
  | ranOut
deriving DecidableEq

/-- `while (true) { int nfds = epoll_wait(...); ... }` with the idle
counter `count`; the schedule of wait outcomes is the list argument. -/
def relayLoop : Nat → List WaitRes → LoopExit
  | _, [] => LoopExit.ranOut
  | count, WaitRes.empty :: rest =>
    if TIMEOUT ≤ count + 1 then LoopExit.timeoutExit else relayLoop (count + 1) rest
  | count, WaitRes.eintr :: rest => relayLoop count rest
  | _, WaitRes.werr :: _ => LoopExit.errorExit
  | _, WaitRes.ev :: rest => relayLoop 0 rest

/-! ### Buffered fallback of the relay (lines 275-283 / 289-297) -/

inductive FbRes
  | closed
  | forwarded (delivered : List Nat) (continues : Bool)
deriving DecidableEq

/-- One execution of the fallback
`len = recv(src, buffer, BUFLEN, MSG_DONTWAIT); if (len <= 0) break;
 sent = send(dst, buffer, len, MSG_DONTWAIT); if (sent <= 0) break;`
`chunk` is what `recv` returned (`len = chunk.length`), `sendAccept` is
how many bytes the non-blocking `send` accepts (so `sent =
min sendAccept len`, with `0` standing for a `send` error).  The bytes
delivered to the destination are the first `sent` bytes of `chunk`; the
loop continues whenever `sent > 0`. -/
def fallbackStep (chunk : List Nat) (sendAccept : Nat) : FbRes :=
  if chunk.length = 0 then FbRes.closed
  else
    let sent := min sendAccept chunk.length
    if sent = 0 then FbRes.closed
    else FbRes.forwarded (chunk.take sent) true

/-! ### Teardown (`ConnectionHandler::close`, lines 103-114) -/

structure CHState where
  clientSock : Int
  targetSock : Int
  clientClosed : Bool
  targetClosed : Bool
deriving DecidableEq

/-- A system call issued by `close()`. -/
inductive Sys
  | shutdownC (fd : Int)
  | closeC (fd : Int)
deriving DecidableEq

/-- `ConnectionHandler::close`: each handle is shut down and closed only
if its `...Closed` flag is unset and the fd is not `-1`; the flag is then
set.  Returns the new state and the trace of system calls issued. -/
def chClose (s : CHState) : CHState × List Sys :=
  let p1 : CHState × List Sys :=
    if s.clientClosed = false ∧ s.clientSock ≠ -1 then
      ({ s with clientClosed := true }, [Sys.shutdownC s.clientSock, Sys.closeC s.clientSock])
    else (s, [])
  if p1.fst.targetClosed = false ∧ p1.fst.targetSock ≠ -1 then
    ({ p1.fst with targetClosed := true },
      p1.snd ++ [Sys.shutdownC p1.fst.targetSock, Sys.closeC p1.fst.targetSock])
  else (p1.fst, p1.snd)

/-- `n` successive invocations of `close()`, accumulating the syscall
trace. -/
def iterClose : Nat → CHState → CHState × List Sys
  | 0, s => (s, [])
  | n + 1, s =>
    let r := chClose s
    let r2 := iterClose n r.fst
    (r2.fst, r.snd ++ r2.snd)

def closeCount (t : List Sys) (fd : Int) : Nat :=
  t.countP (fun x => decide (x = Sys.closeC fd))

def shutCount (t : List Sys) (fd : Int) : Nat :=
  t.countP (fun x => decide (x = Sys.shutdownC fd))

/-! ### SOCKS5 server (src/socks5_server.cpp, namespace socks5, class
Session).  The client's byte stream is a `List Nat`; each asio
`async_read` of `n` bytes succeeds iff `n` more bytes are available,
otherwise the session is torn down with no further reply (`handle_error`). -/

/-- The parsed destination address of a request, by address type. -/
inductive S5Addr
  | v4 (s : List Char)
  | dom (s : List Char)
  | v6 (bytes : List Nat)
deriving DecidableEq

/-- Environment of one session: whether resolve+connect of the upstream
succeeds, and the local endpoint reported in the success reply
(`remote_socket_.local_endpoint()`), already rendered as the
atyp+address byte group. -/
structure S5Env where
  connectOk : Bool
  localAddrBytes : List Nat
  localPort : Nat
deriving DecidableEq

/-- `ntohs` of two network-order port bytes. -/
def portOfBytes (hi lo : Nat) : Nat := hi * 256 + lo

/-- `htons` rendering of a port into two bytes. -/
def portBytesOf (p : Nat) : List Nat := [p / 256 % 256, p % 256]

/-- `make_address_v4(ntohl(...)).to_string()` of the four network-order
bytes: dotted decimal. -/
def ipv4Dotted (b0 b1 b2 b3 : Nat) : List Char :=
  (Nat.repr b0).data ++ '.' :: (Nat.repr b1).data ++ '.' :: (Nat.repr b2).data
    ++ '.' :: (Nat.repr b3).data

/-- `send_reply(rep)` with the default address: `{5, rep, 0}` then
atyp 1, `0.0.0.0`, port `0`. -/
def replyNoAddr (rep : Nat) : List Nat := [5, rep, 0, 1, 0, 0, 0, 0, 0, 0]

/-- `send_reply(0x00, local_endpoint address, local_endpoint port)`. -/
def replyWithLocal (env : S5Env) : List Nat :=
  [5, 0, 0] ++ env.localAddrBytes ++ portBytesOf env.localPort

/-- The target fixed by `connect_remote`
(`std::string fixed_target_addr = "127.0.0.1"`). -/
def fixedTargetAddr : List Char := "127.0.0.1".data

/-- `uint16_t fixed_target_port = 22`. -/
def fixedTargetPort : Nat := 22

/-- `"host:port"` rendering of a target (as in the session's logging and
the spec's examples). -/
def targetString (h : List Char) (p : Nat) : List Char :=
  h ++ ':' :: (Nat.repr p).data

/-- Terminal state of a negotiation. -/
inductive S5Out
  | torn
  | rejected
  | relaying (upHost : List Char) (upPort : Nat) (reqAddr : S5Addr) (reqPort : Nat)
deriving DecidableEq

/-- Result of a negotiation: replies written to the client (in order),
number of input bytes consumed, and the terminal state. -/
structure S5Result where
  sent : List (List Nat)
  consumed : Nat
  out : S5Out
deriving DecidableEq

/-- `connect_remote` and the success/failure reply: the client-requested
`req`/`reqPort` are ignored — the resolver is invoked on
`fixed_target_addr`/`fixed_target_port` (lines 198-222). -/
def connectRemote (env : S5Env) (sent0 : List (List Nat)) (consumed : Nat)
    (req : S5Addr) (reqPort : Nat) : S5Result :=
  if env.connectOk = false then
    { sent := sent0 ++ [replyNoAddr 1], consumed := consumed, out := S5Out.rejected }
  else
    { sent := sent0 ++ [replyWithLocal env], consumed := consumed,
      out := S5Out.relaying fixedTargetAddr fixedTargetPort req reqPort }

/-- The whole Session negotiation: `read_handshake` (version byte,
method-count byte, that many method bytes, no-auth check), then
`read_request` (4-byte header, CONNECT only), address parsing by type,
`read_port`, then `connect_remote`.  Short reads tear the session down
without a reply; a method list without `0x00` draws `{0x05, 0xFF}` and
the write's completion handler calls `handle_error` — nothing further is
read, so `consumed` stays at `2 + nmethods`. -/
def socks5Negotiate (env : S5Env) (input : List Nat) : S5Result :=
  match input with
  | ver :: nmethods :: r1 =>
    if ver ≠ 5 then { sent := [], consumed := 2, out := S5Out.torn }
    else if r1.length < nmethods then { sent := [], consumed := 2, out := S5Out.torn }
    else
      let methods := r1.take nmethods
      let r2 := r1.drop nmethods
      if methods.contains 0 = false then
        { sent := [[5, 255]], consumed := 2 + nmethods, out := S5Out.rejected }
      else
        let sent0 : List (List Nat) := [[5, 0]]
        match r2 with
        | rver :: cmd :: _rsv :: atype :: r3 =>
          let base := 2 + nmethods + 4
          if rver ≠ 5 ∨ cmd ≠ 1 then
            { sent := sent0 ++ [replyNoAddr 7], consumed := base, out := S5Out.rejected }
          else if atype = 1 then
            match r3 with
            | b0 :: b1 :: b2 :: b3 :: hi :: lo :: _ =>
              connectRemote env sent0 (base + 6) (S5Addr.v4 (ipv4Dotted b0 b1 b2 b3))
                (portOfBytes hi lo)
            | _ => { sent := sent0, consumed := base, out := S5Out.torn }
          else if atype = 3 then
            match r3 with
            | len :: r4 =>
              if r4.length < len + 2 then
                { sent := sent0, consumed := base + 1, out := S5Out.torn }
              else
                match r4.drop len with
                | hi :: lo :: _ =>
                  connectRemote env sent0 (base + 1 + len + 2)
                    (S5Addr.dom ((r4.take len).map Char.ofNat)) (portOfBytes hi lo)
                | _ => { sent := sent0, consumed := base + 1 + len, out := S5Out.torn }
            | [] => { sent := sent0, consumed := base, out := S5Out.torn }
          else if atype = 4 then
            match r3.drop 16 with
            | hi :: lo :: _ =>
              connectRemote env sent0 (base + 18) (S5Addr.v6 (r3.take 16))
                (portOfBytes hi lo)
            | _ => { sent := sent0, consumed := base, out := S5Out.torn }
          else
            { sent := sent0 ++ [replyNoAddr 8], consumed := base, out := S5Out.rejected }
        | _ => { sent := sent0, consumed := 2 + nmethods, out := S5Out.torn }
  | _ => { sent := [], consumed := 0, out := S5Out.torn }

/-! ### Session teardown and forwarding timer -/

structure S5SessionState where
  clientOpen : Bool
  remoteOpen : Bool
  timerArmed : Bool
deriving DecidableEq

/-- `handle_error`: `cancel_timeout` then shutdown+close of both
sockets. -/
def s5HandleError (_s : S5SessionState) : S5SessionState :=
  { clientOpen := false, remoteOpen := false, timerArmed := false }

/-- Expiry of the armed forwarding timer (`set_timeout`'s wait handler
fires with no error and calls `handle_error(timed_out)`). -/
def s5TimerExpire (s : S5SessionState) : S5SessionState := s5HandleError s

/-- `read_from_client`: an asio `async_write` of `length` bytes writes the
whole buffer (asio composed write), so the chunk forwarded upstream is
exactly the chunk read. -/
def s5ForwardChunk (chunk : List Nat) : List Nat := chunk

/-! ### Concrete instances used by the witness theorems -/

def henvW : HbEnv :=
  { gaiOk := true, sockOk := true, nbOk := true, conn := ConnectOutcome.errInProgress }

def envW : S5Env := { connectOk := true, localAddrBytes := [1, 127, 0, 0, 1], localPort := 45000 }

def s0c : CHState := { clientSock := 7, targetSock := 9, clientClosed := false, targetClosed := false }

/-! ## Lemmas -/

theorem strFind_zero_iff (hay pat : List Char) :
    strFind hay pat = some 0 ↔ List.isPrefixOf pat hay = true := by
  cases hay with
  | nil => cases pat <;> simp [strFind, List.isPrefixOf]
  | cons c t =>
    cases hIsP : List.isPrefixOf pat (c :: t) <;> simp [strFind, hIsP]

/-! ## Claim theorems -/

/-- C1: a HeaderBootstrap request is allowed iff (the configured
passphrase is non-empty and the supplied X-Pass credential equals it) or
the X-Real-Host target string is prefixed by the configured bind-address
literal; in particular X-Pass equal to a configured non-empty passphrase
always allows, regardless of X-Real-Host. -/
theorem c1_header_auth_iff (pass ip passwd hp : List Char) :
    (authAllowed pass ip passwd hp = true ↔
      ((pass ≠ [] ∧ passwd = pass) ∨ List.isPrefixOf ip hp = true)) ∧
    (pass ≠ [] → passwd = pass → authAllowed pass ip passwd hp = true) := by
  have hiff := strFind_zero_iff hp ip
  unfold authAllowed
  split_ifs with h1 h2 <;> simp_all

/-- C1 witness: with passphrase "s", bind address "0.0.0.0", a request
supplying X-Pass "s" and X-Real-Host "evil.com:22" is allowed. -/
theorem c1_header_auth_iff_w :
    "s".data ≠ ([] : List Char) ∧
    authAllowed "s".data IP "s".data "evil.com:22".data = true :=
  ⟨by decide, (c1_header_auth_iff "s".data IP "s".data "evil.com:22".data).2 (by decide) rfl⟩

/-- C9: when no X-Real-Host value is extracted (header absent or value
not CRLF-terminated, so findHeader returns ""), the target defaults to
"0.0.0.0:22", which is prefixed by the bind-address literal "0.0.0.0",
so the request is authorized regardless of passphrase configuration and
supplied credential. -/
theorem c9_default_host_always_allowed (buf pass passwd : List Char)
    (h : findHeader buf "X-Real-Host".data = []) :
    hostPortOf buf = DEFAULT_HOST ∧
    authAllowed pass IP passwd (hostPortOf buf) = true := by
  have h1 : hostPortOf buf = DEFAULT_HOST := by simp [hostPortOf, h]
  refine ⟨h1, ?_⟩
  rw [h1]
  unfold authAllowed
  split_ifs with h2 h3
  · rfl
  · rfl
  · exact absurd (by decide : strFind DEFAULT_HOST IP = some 0) h3

/-- C9 witness: a request with no X-Real-Host header at all, under a
configured passphrase "secret" and non-matching credential "x", is still
allowed. -/
theorem c9_default_host_always_allowed_w :
    findHeader "GET / HTTP/1.1\r\n\r\n".data "X-Real-Host".data = [] ∧
    hostPortOf "GET / HTTP/1.1\r\n\r\n".data = DEFAULT_HOST ∧
    authAllowed "secret".data IP "x".data (hostPortOf "GET / HTTP/1.1\r\n\r\n".data) = true :=
  ⟨by decide,
    c9_default_host_always_allowed "GET / HTTP/1.1\r\n\r\n".data "secret".data "x".data (by decide)⟩

/-- C5: a rejected request is answered with exactly one reply, the 400
WrongPass literal when the configured passphrase is non-empty and the
extracted X-Pass credential differs from it (an absent X-Pass is
extracted as ""), else the 403 Forbidden literal — in particular always
the 403 literal when no passphrase is configured (the program's own
configuration, PASS = ""). -/
theorem c5_rejection_replies (env : HbEnv) (pass ip buf : List Char)
    (hrej : authAllowed pass ip (findHeader buf "X-Pass".data) (hostPortOf buf) = false) :
    (hbHandle env pass ip buf).replies = [rejectReply pass (findHeader buf "X-Pass".data)] ∧
    (rejectReply pass (findHeader buf "X-Pass".data) = resp400 ↔
      (pass ≠ [] ∧ findHeader buf "X-Pass".data ≠ pass)) ∧
    (pass = [] → rejectReply pass (findHeader buf "X-Pass".data) = resp403) := by
  refine ⟨by simp [hbHandle, hrej], ?_, ?_⟩
  · unfold rejectReply
    split_ifs with h
    · simp [h]
    · constructor
      · intro habs
        exact absurd habs.symm (by decide)
      · intro hcon
        exact absurd hcon h
  · intro hp
    simp [rejectReply, hp]

/-- C5 witness: no configured passphrase (the program's PASS = ""), a
request with X-Real-Host "evil.com:22" (not prefixed by "0.0.0.0") is
rejected and the reply sent is the 403 literal. -/
theorem c5_rejection_replies_w :
    authAllowed [] IP (findHeader "X-Real-Host: evil.com:22\r\n\r\n".data "X-Pass".data)
      (hostPortOf "X-Real-Host: evil.com:22\r\n\r\n".data) = false ∧
    (hbHandle henvW [] IP "X-Real-Host: evil.com:22\r\n\r\n".data).replies
      = [rejectReply [] (findHeader "X-Real-Host: evil.com:22\r\n\r\n".data "X-Pass".data)] ∧
    rejectReply [] (findHeader "X-Real-Host: evil.com:22\r\n\r\n".data "X-Pass".data) = resp403 :=
  ⟨by decide,
    (c5_rejection_replies henvW [] IP "X-Real-Host: evil.com:22\r\n\r\n".data (by decide)).1,
    (c5_rejection_replies henvW [] IP "X-Real-Host: evil.com:22\r\n\r\n".data (by decide)).2.2 rfl⟩

/-- C3: a non-blocking connect returning EINPROGRESS is treated as
provisional success — connectTarget returns true with no
writability/completion wait, and the handler then sends the 200 success
line as its first and only negotiation reply. -/
theorem c3_einprogress_provisional_success (env : HbEnv) (pass ip buf : List Char) (q : Int)
    (hconn : env.conn = ConnectOutcome.errInProgress)
    (hgai : env.gaiOk = true) (hsock : env.sockOk = true) (hnb : env.nbOk = true)
    (hport : portParse (hostPortOf buf) = Except.ok q)
    (hallow : authAllowed pass ip (findHeader buf "X-Pass".data) (hostPortOf buf) = true) :
    connectTarget env (hostPortOf buf) = Except.ok true ∧
    (hbHandle env pass ip buf).replies = [RESPONSE] ∧
    (hbHandle env pass ip buf).tunnel = true := by
  have hct : connectTarget env (hostPortOf buf) = Except.ok true := by
    simp [connectTarget, hport, hgai, hsock, hnb, hconn]
  refine ⟨hct, ?_, ?_⟩ <;> simp [hbHandle, hallow, hct]

/-- C3 witness: with every prior step succeeding and connect reporting
EINPROGRESS, the request "X-Real-Host: 0.0.0.0:22" is answered by the 200
line at once. -/
theorem c3_einprogress_provisional_success_w :
    henvW.conn = ConnectOutcome.errInProgress ∧
    portParse (hostPortOf "X-Real-Host: 0.0.0.0:22\r\n\r\n".data) = Except.ok 22 ∧
    connectTarget henvW (hostPortOf "X-Real-Host: 0.0.0.0:22\r\n\r\n".data) = Except.ok true ∧
    (hbHandle henvW [] IP "X-Real-Host: 0.0.0.0:22\r\n\r\n".data).replies = [RESPONSE] :=
  ⟨rfl, by rfl,
    (c3_einprogress_provisional_success henvW [] IP "X-Real-Host: 0.0.0.0:22\r\n\r\n".data 22
      rfl rfl rfl rfl (by rfl) (by decide)).1,
    (c3_einprogress_provisional_success henvW [] IP "X-Real-Host: 0.0.0.0:22\r\n\r\n".data 22
      rfl rfl rfl rfl (by rfl) (by decide)).2.1⟩

/-- C10: for an allowed request whose X-Real-Host port component is not a
parseable in-range integer, std::stoi throws, the handler's catch-all
swallows the exception, and not a single reply byte is sent — neither the
502 line nor any other status line (the destructor then closes the
sockets). -/
theorem c10_stoi_throw_no_reply (env : HbEnv) (pass ip buf : List Char)
    (hallow : authAllowed pass ip (findHeader buf "X-Pass".data) (hostPortOf buf) = true)
    (hport : portParse (hostPortOf buf) = Except.error ()) :
    connectTarget env (hostPortOf buf) = Except.error () ∧
    (hbHandle env pass ip buf).replies = [] ∧
    (hbHandle env pass ip buf).tunnel = false ∧
    (∀ s : CHState, s.clientSock ≠ -1 → ((chClose s).fst).clientClosed = true) := by
  have hct : connectTarget env (hostPortOf buf) = Except.error () := by
    simp [connectTarget, hport]
  refine ⟨hct, by simp [hbHandle, hallow, hct], by simp [hbHandle, hallow, hct], ?_⟩
  intro s hs
  simp only [chClose]
  split_ifs with h1 h2 h3 <;> simp_all

/-- C10 witness: the allowed request "X-Real-Host: 0.0.0.0:abc" makes
std::stoi throw and the handler sends nothing at all. -/
theorem c10_stoi_throw_no_reply_w :
    authAllowed [] IP (findHeader "X-Real-Host: 0.0.0.0:abc\r\n\r\n".data "X-Pass".data)
      (hostPortOf "X-Real-Host: 0.0.0.0:abc\r\n\r\n".data) = true ∧
    portParse (hostPortOf "X-Real-Host: 0.0.0.0:abc\r\n\r\n".data) = Except.error () ∧
    (hbHandle henvW [] IP "X-Real-Host: 0.0.0.0:abc\r\n\r\n".data).replies = [] :=
  ⟨by decide, by rfl,
    (c10_stoi_throw_no_reply henvW [] IP "X-Real-Host: 0.0.0.0:abc\r\n\r\n".data
      (by decide) (by rfl)).2.1⟩

set_option maxHeartbeats 1000000 in
/-- Auxiliary: whatever the input, a negotiation that ends relaying does
so with the fixed upstream target. -/
theorem s5_out_fixed (env : S5Env) (input : List Nat) :
    ∀ h p req rp, (socks5Negotiate env input).out = S5Out.relaying h p req rp →
      h = fixedTargetAddr ∧ p = fixedTargetPort := by
  unfold socks5Negotiate
  repeat' split
  all_goals intro h p req rp hout
  all_goals simp only [connectRemote] at hout
  all_goals repeat' split at hout
  all_goals simp_all

/-- C2: every successfully parsed SOCKS5 CONNECT request is connected to
the fixed backend 127.0.0.1:22, regardless of the client-requested
address and port. -/
theorem c2_socks5_fixed_target (env : S5Env) (input : List Nat) (h : List Char) (p : Nat)
    (req : S5Addr) (rp : Nat)
    (hout : (socks5Negotiate env input).out = S5Out.relaying h p req rp) :
    h = fixedTargetAddr ∧ p = fixedTargetPort ∧
    targetString h p = "127.0.0.1:22".data := by
  obtain ⟨h1, h2⟩ := s5_out_fixed env input h p req rp hout
  subst h1
  subst h2
  exact ⟨rfl, rfl, by decide⟩

/-- C2 witness: the request with IPv4 bytes 127,0,0,1 and port bytes
0x00,0x16 parses to the requested target "127.0.0.1":22 and is connected
to "127.0.0.1:22". -/
theorem c2_socks5_fixed_target_w :
    (socks5Negotiate envW [5, 1, 0, 5, 1, 0, 1, 127, 0, 0, 1, 0, 22]).out
      = S5Out.relaying fixedTargetAddr fixedTargetPort (S5Addr.v4 "127.0.0.1".data) 22 ∧
    targetString fixedTargetAddr fixedTargetPort = "127.0.0.1:22".data :=
  ⟨by decide,
    (c2_socks5_fixed_target envW [5, 1, 0, 5, 1, 0, 1, 127, 0, 0, 1, 0, 22]
      fixedTargetAddr fixedTargetPort (S5Addr.v4 "127.0.0.1".data) 22 (by decide)).2.2⟩

/-- C6: a SOCKS5 method list without the no-authentication method 0x00
draws exactly the 2-byte rejection {0x05, 0xFF} and the session closes
having consumed only the 2 + nmethods handshake bytes — no further read
from the client, whatever extra bytes follow. -/
theorem c6_noauth_rejection (env : S5Env) (methods extra : List Nat) (n : Nat)
    (hn : methods.length = n) (hno : methods.contains 0 = false) :
    socks5Negotiate env (5 :: n :: (methods ++ extra)) =
      { sent := [[5, 255]], consumed := 2 + n, out := S5Out.rejected } := by
  subst hn
  have hlen : ¬ ((methods ++ extra).length < methods.length) := by
    simp [List.length_append]
  have hno' : (0 : Nat) ∉ methods := by simpa using hno
  simp [socks5Negotiate, hlen, hno, List.take_left, List.drop_left]
  intro habs
  exact absurd habs hno'

/-- C6 witness: method list [1, 2] (no 0x00) with trailing request bytes
[9, 9, 9] present: reply is {5, 0xFF} and exactly 4 bytes are consumed. -/
theorem c6_noauth_rejection_w :
    ([1, 2] : List Nat).contains 0 = false ∧
    socks5Negotiate envW [5, 2, 1, 2, 9, 9, 9] =
      { sent := [[5, 255]], consumed := 4, out := S5Out.rejected } :=
  ⟨by decide, c6_noauth_rejection envW [1, 2] [9, 9, 9] 2 rfl (by decide)⟩

/-- Auxiliary: a run of k+1 consecutive empty one-second waits fires the
idle timeout as soon as the counter can reach TIMEOUT. -/
theorem relayLoop_timeout_of_empties (k : Nat) :
    ∀ count rest, TIMEOUT ≤ count + (k + 1) →
      relayLoop count (List.replicate (k + 1) WaitRes.empty ++ rest) = LoopExit.timeoutExit := by
  induction k with
  | zero =>
    intro count rest h
    simp only [List.replicate_succ, List.replicate_zero, List.cons_append, List.nil_append,
      relayLoop]
    rw [if_pos (by omega)]
  | succ k ih =>
    intro count rest h
    by_cases h1 : TIMEOUT ≤ count + 1
    · simp only [List.replicate_succ, List.cons_append, relayLoop]
      rw [if_pos h1]
    · rw [List.replicate_succ, List.cons_append]
      simp only [relayLoop]
      rw [if_neg h1]
      exact ih (count + 1) rest (by omega)

/-- C7: sixty consecutive empty one-second readiness waits (the counter
resetting on any event) make the HeaderBootstrap relay loop exit as a
timeout; teardown then closes both sockets; and in the SOCKS5 relay,
expiry of the forwarding timer tears both sockets down. -/
theorem c7_idle_timeout_teardown :
    (∀ rest, relayLoop 0 (List.replicate TIMEOUT WaitRes.empty ++ rest) = LoopExit.timeoutExit) ∧
    (∀ count rest, relayLoop count (WaitRes.ev :: rest) = relayLoop 0 rest) ∧
    (∀ s : CHState, s.clientSock ≠ -1 → s.targetSock ≠ -1 →
      ((chClose s).fst.clientClosed = true ∧ (chClose s).fst.targetClosed = true)) ∧
    (∀ s : S5SessionState,
      (s5TimerExpire s).clientOpen = false ∧ (s5TimerExpire s).remoteOpen = false ∧
      (s5TimerExpire s).timerArmed = false) := by
  refine ⟨?_, ?_, ?_, ?_⟩
  · intro rest
    have h60 : TIMEOUT = 59 + 1 := by decide
    rw [h60]
    exact relayLoop_timeout_of_empties 59 0 rest (by decide)
  · intro count rest
    rfl
  · intro s h1 h2
    simp only [chClose]
    split_ifs with ha hb hc <;> simp_all
  · intro s
    exact ⟨rfl, rfl, rfl⟩

/-- C7 witness: an all-empty 60-wait schedule exits as a timeout, and
closing the open connection ⟨7, 9⟩ marks both sockets closed. -/
theorem c7_idle_timeout_teardown_w :
    relayLoop 0 (List.replicate TIMEOUT WaitRes.empty ++ []) = LoopExit.timeoutExit ∧
    s0c.clientSock ≠ -1 ∧ s0c.targetSock ≠ -1 ∧
    ((chClose s0c).fst.clientClosed = true ∧ (chClose s0c).fst.targetClosed = true) :=
  ⟨c7_idle_timeout_teardown.1 [], by decide, by decide,
    c7_idle_timeout_teardown.2.2.1 s0c (by decide) (by decide)⟩

/-- Auxiliary: a second invocation of close() performs no system call and
leaves the state unchanged. -/
theorem chClose_second_noop (s : CHState) :
    chClose (chClose s).fst = ((chClose s).fst, []) := by
  obtain ⟨cs, ts, cc, tc⟩ := s
  cases cc <;> cases tc <;>
    by_cases hc : cs = -1 <;> by_cases ht : ts = -1 <;>
      simp_all [chClose]

/-- Auxiliary: any number of additional close() invocations add nothing
to the first one's effect and trace. -/
theorem iterClose_eq_one (n : Nat) :
    ∀ s, iterClose (n + 1) s = ((chClose s).fst, (chClose s).snd) := by
  induction n with
  | zero =>
    intro s
    simp [iterClose]
  | succ n ih =>
    intro s
    have h1 : iterClose (n + 1 + 1) s
        = ((iterClose (n + 1) (chClose s).fst).fst,
           (chClose s).snd ++ (iterClose (n + 1) (chClose s).fst).snd) := rfl
    rw [h1, ih (chClose s).fst, chClose_second_noop s]
    simp

/-- C8: teardown is idempotent — a second (or any further) close()
performs no system call; across any sequence of close() invocations each
socket handle is shut down and closed exactly once, and only if it was
open. -/
theorem c8_close_idempotent (s : CHState) (n : Nat) (hdiff : s.clientSock ≠ s.targetSock) :
    chClose (chClose s).fst = ((chClose s).fst, []) ∧
    iterClose (n + 1) s = ((chClose s).fst, (chClose s).snd) ∧
    closeCount (iterClose (n + 1) s).snd s.clientSock
      = (if s.clientClosed = false ∧ s.clientSock ≠ -1 then 1 else 0) ∧
    closeCount (iterClose (n + 1) s).snd s.targetSock
      = (if s.targetClosed = false ∧ s.targetSock ≠ -1 then 1 else 0) ∧
    shutCount (iterClose (n + 1) s).snd s.clientSock
      = (if s.clientClosed = false ∧ s.clientSock ≠ -1 then 1 else 0) ∧
    shutCount (iterClose (n + 1) s).snd s.targetSock
      = (if s.targetClosed = false ∧ s.targetSock ≠ -1 then 1 else 0) := by
  obtain ⟨cs, ts, cc, tc⟩ := s
  have hdiff1 : cs ≠ ts := hdiff
  have hdiff2 : ts ≠ cs := Ne.symm hdiff1
  have hit := iterClose_eq_one n ⟨cs, ts, cc, tc⟩
  refine ⟨chClose_second_noop _, hit, ?_, ?_, ?_, ?_⟩ <;> rw [hit] <;>
    cases cc <;> cases tc <;>
      by_cases hc : cs = -1 <;> by_cases ht : ts = -1 <;>
        simp_all [chClose, closeCount, shutCount, List.countP_cons, List.countP_nil]

/-- C8 witness: on the open connection ⟨7, 9⟩, two successive close()
invocations coincide with one, and each handle is shut down and closed
exactly once. -/
theorem c8_close_idempotent_w :
    s0c.clientSock ≠ s0c.targetSock ∧
    chClose (chClose s0c).fst = ((chClose s0c).fst, []) ∧
    closeCount (iterClose 2 s0c).snd s0c.clientSock = 1 ∧
    closeCount (iterClose 2 s0c).snd s0c.targetSock = 1 ∧
    shutCount (iterClose 2 s0c).snd s0c.clientSock = 1 ∧
    shutCount (iterClose 2 s0c).snd s0c.targetSock = 1 :=
  ⟨by decide,
    (c8_close_idempotent s0c 1 (by decide)).1,
    ((c8_close_idempotent s0c 1 (by decide)).2.2.1).trans (by decide),
    ((c8_close_idempotent s0c 1 (by decide)).2.2.2.1).trans (by decide),
    ((c8_close_idempotent s0c 1 (by decide)).2.2.2.2.1).trans (by decide),
    ((c8_close_idempotent s0c 1 (by decide)).2.2.2.2.2).trans (by decide)⟩

/-- C4 (byte fidelity, refuted): in the buffered receive-then-send
fallback of the HeaderBootstrap relay, when the non-blocking send accepts
only part of the received chunk (here: recv returned [97, 98] and send
accepted 1 byte), only that prefix reaches the other side and the relay
continues — the unsent byte is silently dropped, against the claimed
"no byte dropped".  The SOCKS5 relay's asio composed write, by contrast,
forwards each chunk whole. -/
theorem c4_fallback_short_send_drops :
    fallbackStep [97, 98] 1 = FbRes.forwarded [97] true ∧
    FbRes.forwarded [97] true ≠ FbRes.forwarded [97, 98] true ∧
    s5ForwardChunk [97, 98] = [97, 98] :=
  ⟨by decide, by decide, rfl⟩

end Multiflow
